import Mathlib

/-!
Verification of the olist-ecommerce-pipeline loading core.

Shallow embedding of:
  - scripts/enhanced_olist_loader.py  (OlistDataLoader.table_configs,
    OlistDataLoader.load_csv_files, main) — the Schema Registry, the
    Coercion Engine and the Load Orchestrator;
  - scripts/data_field_and_types_raw.py (analyze_csv_files,
    print_detailed_analysis) — the Type Inferencer and the detailed report.

Pandas-level behaviour that the scripts rely on (read_csv column type
inference, the default NA token list, to_numeric / to_datetime / astype
semantics, numpy scalar division) is embedded explicitly below; each
definition's doc comment names the pandas behaviour it reproduces.
-/

/-- Storage dtype of a pandas column as produced by `pd.read_csv` with no
explicit `dtype` argument: `object` (text), `int64`, `float64` or `bool`. -/
inductive Dtype where
  | object
  | int64
  | float64
  | boolean
deriving DecidableEq, Repr

/-- Name of a dtype as rendered by `str(df[column].dtype)`. -/
def dtypeName : Dtype → String
  | Dtype.object => "object"
  | Dtype.int64 => "int64"
  | Dtype.float64 => "float64"
  | Dtype.boolean => "bool"

/-- An exact decimal number `num / 10 ^ exp`, the value of a parsed CSV
decimal literal.  Kept unreduced so that all arithmetic on it is plain
integer arithmetic. -/
structure Dec where
  num : Int
  exp : Nat
deriving DecidableEq, Repr

/-- The rational value an exact decimal denotes. -/
def Dec.val (d : Dec) : Rat := (d.num : Rat) / (10 : Rat) ^ d.exp

/-- One cell of a pandas column: a missing value (`NaN`/`NaT`/`None`),
a text value, an int64 value, a float64 value (modelled as an exact
decimal), a parsed timestamp (kept as its source text) or a boolean. -/
inductive PdValue where
  | nan
  | vStr (s : String)
  | vInt (n : Int)
  | vFloat (d : Dec)
  | vDate (s : String)
  | vBool (b : Bool)
deriving DecidableEq, Repr

/-- Numeric value of a list of decimal digit characters (empty list ↦ 0). -/
def digitsVal (cs : List Char) : Nat :=
  cs.foldl (fun a c => a * 10 + (c.toNat - 48)) 0

/-- Integer parse as performed by the pandas CSV reader when inferring an
int64 column: optional sign followed by at least one decimal digit.
Leading zeros are accepted and lost ("01310" parses to 1310). -/
def parseInt? (s : String) : Option Int :=
  let core : List Char → Option Int := fun cs =>
    if cs ≠ [] ∧ cs.all Char.isDigit then some (Int.ofNat (digitsVal cs)) else none
  match s.data with
  | '+' :: rest => core rest
  | '-' :: rest => (core rest).map (fun n => -n)
  | cs => core cs

/-- Split a character list at its (single) decimal point; `none` when more
than one point occurs. -/
def splitDot : List Char → List Char → Option (List Char × List Char)
  | [], acc => some (acc.reverse, [])
  | '.' :: rest, acc => if rest.contains '.' then none else some (acc.reverse, rest)
  | c :: rest, acc => splitDot rest (c :: acc)

/-- Decimal-literal parse modelling `pd.to_numeric` on a single string:
optional sign, digits with an optional fractional part, at least one digit
overall.  (Exponent forms are omitted: no value settled below uses them.) -/
def parseDecimal? (s : String) : Option Dec :=
  let signed : List Char → Int → Option Dec := fun cs sgn =>
    match splitDot cs [] with
    | none => none
    | some (ip, fp) =>
      if ip.all Char.isDigit ∧ fp.all Char.isDigit ∧ (ip ≠ [] ∨ fp ≠ []) then
        some { num := sgn * Int.ofNat (digitsVal (ip ++ fp)), exp := fp.length }
      else none
  match s.data with
  | '+' :: rest => signed rest 1
  | '-' :: rest => signed rest (-1)
  | cs => signed cs 1

/-- Digit-bound check for a two-digit field. -/
def twoDigit (a b : Char) (lo hi : Nat) : Bool :=
  a.isDigit && b.isDigit &&
    (let v := (a.toNat - 48) * 10 + (b.toNat - 48)
     lo ≤ v && v ≤ hi)

/-- Strict timestamp grammar modelling the `pd.to_datetime(..., errors='raise')`
check over the ISO forms occurring in the Olist extracts:
`YYYY-MM-DD` or `YYYY-MM-DD HH:MM:SS`. -/
def isDatetimeString (s : String) : Bool :=
  match s.data with
  | [y1, y2, y3, y4, '-', m1, m2, '-', d1, d2] =>
    y1.isDigit && y2.isDigit && y3.isDigit && y4.isDigit &&
      twoDigit m1 m2 1 12 && twoDigit d1 d2 1 31
  | [y1, y2, y3, y4, '-', m1, m2, '-', d1, d2, ' ', h1, h2, ':', n1, n2, ':', s1, s2] =>
    y1.isDigit && y2.isDigit && y3.isDigit && y4.isDigit &&
      twoDigit m1 m2 1 12 && twoDigit d1 d2 1 31 &&
      twoDigit h1 h2 0 23 && twoDigit n1 n2 0 59 && twoDigit s1 s2 0 59
  | _ => false

/-- The default NA tokens of `pd.read_csv`: any of these raw texts is read
as a missing value (NaN). -/
def naTokens : List String :=
  ["", "#N/A", "#N/A N/A", "#NA", "-1.#IND", "-1.#QNAN", "-NaN", "-nan",
   "1.#IND", "1.#QNAN", "<NA>", "N/A", "NA", "NULL", "NaN", "None",
   "n/a", "nan", "null"]

/-- Whether a raw token is one of the default NA markers. -/
def tokenIsNA (t : String) : Bool := naTokens.contains t

/-- Column type inference of `pd.read_csv` with no `dtype` argument, applied
to the raw tokens of one column:
  - no NA token and every token an integer literal → `int64`;
  - every non-NA token a decimal literal (covers the all-NA column) → `float64`;
  - no NA token and every token `True`/`False` → `bool`;
  - otherwise → `object`, with NA tokens as missing values.
A column with no rows at all (header-only file) stays `object`. -/
def readColumn (toks : List String) : Dtype × List PdValue :=
  if toks.isEmpty then (Dtype.object, [])
  else if (!toks.any tokenIsNA) && toks.all (fun t => (parseInt? t).isSome) then
    (Dtype.int64, toks.map (fun t => PdValue.vInt ((parseInt? t).getD 0)))
  else if (toks.filter (fun t => !tokenIsNA t)).all (fun t => (parseDecimal? t).isSome) then
    (Dtype.float64, toks.map (fun t =>
      if tokenIsNA t then PdValue.nan
      else PdValue.vFloat ((parseDecimal? t).getD { num := 0, exp := 0 })))
  else if (!toks.any tokenIsNA) && toks.all (fun t => t = "True" ∨ t = "False") then
    (Dtype.boolean, toks.map (fun t => PdValue.vBool (t = "True")))
  else
    (Dtype.object, toks.map (fun t => if tokenIsNA t then PdValue.nan else PdValue.vStr t))

/-- The `parse_dates` read path of `pd.read_csv` for a declared temporal
column: when every non-NA token parses under the timestamp grammar the
column becomes datetime (NA tokens become missing); otherwise pandas
leaves the column to ordinary inference. -/
def readDateColumn (toks : List String) : List PdValue :=
  if toks.all (fun t => tokenIsNA t || isDatetimeString t) then
    toks.map (fun t => if tokenIsNA t then PdValue.nan else PdValue.vDate t)
  else (readColumn toks).2

/-- Raw content of one CSV file: header names with their column tokens. -/
abbrev FileData := List (String × List String)

/-- An in-memory dataframe: named columns of typed cells. -/
abbrev Frame := List (String × List PdValue)

/-- The read step of `OlistDataLoader.load_csv_files`:
`pd.read_csv(file_path, parse_dates=config["date_columns"] ...)`.
A declared `parse_dates` column that is absent from the file raises
(`Missing column provided to parse_dates`), which the loader's
`except` block turns into a failed load. -/
def readCsv (file : FileData) (dateCols : List String) : Except String Frame :=
  if dateCols.all (fun dc => file.any (fun c => c.1 = dc)) then
    Except.ok (file.map (fun c =>
      (c.1, if dateCols.contains c.1 then readDateColumn c.2 else (readColumn c.2).2)))
  else Except.error ("Missing column provided to parse_dates")

/-- `pd.to_numeric(value, errors='coerce')` on one cell: missing stays
missing, numbers pass through, text parses under the decimal grammar or
becomes missing, booleans become 1/0.  (Datetime cells are mapped to
missing; no int/float-declared column of the registry holds timestamps.) -/
def toNumericCell : PdValue → Option Dec
  | PdValue.nan => none
  | PdValue.vStr s => parseDecimal? s
  | PdValue.vInt n => some { num := n, exp := 0 }
  | PdValue.vFloat d => some d
  | PdValue.vDate _ => none
  | PdValue.vBool b => some { num := if b then 1 else 0, exp := 0 }

/-- Truncation toward zero, the behaviour of `.astype(int)` on a float. -/
def decTrunc (d : Dec) : Int := d.num.tdiv (Int.ofNat (10 ^ d.exp))

/-- Rendering of one cell by `.astype(str)`: a missing value renders as the
literal text `"nan"`.  (Non-integral floats are rendered through `Rat`'s
own repr; only integral values are evaluated in the statements below.) -/
def astypeStr : PdValue → String
  | PdValue.nan => "nan"
  | PdValue.vStr s => s
  | PdValue.vInt n => toString n
  | PdValue.vFloat d => if d.exp = 0 then toString d.num ++ ".0"
      else toString d.num ++ "e-" ++ toString d.exp
  | PdValue.vDate s => s
  | PdValue.vBool b => if b then ("True") else ("False")

/-- Declared-`string` coercion: `df[col].astype(str).replace('nan', None)` —
every cell becomes text and any cell whose text is exactly `"nan"` is put
back to a true missing value. -/
def coerceStringCell (c : PdValue) : PdValue :=
  let s := astypeStr c
  if s = "nan" then PdValue.nan else PdValue.vStr s

/-- Declared-`int` coercion:
`pd.to_numeric(df[col], errors='coerce').fillna(0).astype(int)` —
unparseable and missing cells become 0, numeric cells are truncated
toward zero. -/
def coerceIntCell (c : PdValue) : PdValue :=
  match toNumericCell c with
  | none => PdValue.vInt 0
  | some d => PdValue.vInt (decTrunc d)

/-- Declared-`float` coercion: `pd.to_numeric(df[col], errors='coerce')` —
unparseable cells become missing. -/
def coerceFloatCell (c : PdValue) : PdValue :=
  match toNumericCell c with
  | none => PdValue.nan
  | some d => PdValue.vFloat d

/-- Declared-`datetime` coercion for a column not already parsed at read
time: `pd.to_datetime(df[col], errors='coerce')` — unparseable cells
become missing.  (Numeric epoch inputs are not modelled; every
datetime-declared column of the registry is temporal text.) -/
def coerceDatetimeCell (c : PdValue) : PdValue :=
  match c with
  | PdValue.vStr s => if isDatetimeString s then PdValue.vDate s else PdValue.nan
  | PdValue.vDate s => PdValue.vDate s
  | _ => PdValue.nan

/-- Declared target type of a column in a table configuration. -/
inductive DeclType where
  | string
  | int
  | float
  | datetime
deriving DecidableEq, Repr

/-- Per-column action of the coercion loop of `load_csv_files`
(`for col, dtype in config["dtypes"].items(): if col in df.columns: ...`):
a column with no declared dtype passes through unmodified; a
datetime-declared column already parsed at read time is left alone. -/
def colCoerce (dtypes : List (String × DeclType)) (dateCols : List String)
    (c : String × List PdValue) : String × List PdValue :=
  match dtypes.lookup c.1 with
  | none => c
  | some DeclType.string => (c.1, c.2.map coerceStringCell)
  | some DeclType.int => (c.1, c.2.map coerceIntCell)
  | some DeclType.float => (c.1, c.2.map coerceFloatCell)
  | some DeclType.datetime =>
    (c.1, if dateCols.contains c.1 then c.2 else c.2.map coerceDatetimeCell)

/-- The whole coercion step of `load_csv_files`: the loop only ever assigns
to columns present in the dataframe, so it is exactly a per-column map.
A declared column absent from the dataframe is skipped by the
`if col in df.columns` guard. -/
def applyDtypes (dtypes : List (String × DeclType)) (dateCols : List String)
    (df : Frame) : Frame :=
  df.map (colCoerce dtypes dateCols)

/-- `dropna()` on a column of cells. -/
def dropna (cells : List PdValue) : List PdValue :=
  cells.filter (fun c => !(c == PdValue.nan))

/-- The `sample_values` field of `analyze_csv_files`:
`df[column].dropna().head(3).tolist() if not df[column].empty else []`. -/
def sampleValues (cells : List PdValue) : List PdValue :=
  if cells.isEmpty then [] else (dropna cells).take 3

/-- Whether `pd.to_datetime(cell, errors='raise')` succeeds on one sampled
cell (the analyzer applies it after `dropna()`; a missing value passes as
`NaT`). -/
def cellIsDatetime : PdValue → Bool
  | PdValue.vStr s => isDatetimeString s
  | PdValue.vDate _ => true
  | PdValue.nan => true
  | _ => false

/-- Whether `pd.to_numeric(cell, errors='raise')` succeeds on one sampled
cell. -/
def cellIsNumeric (c : PdValue) : Bool :=
  match c with
  | PdValue.nan => true
  | _ => (toNumericCell c).isSome

/-- The `suggested_type` computation of `analyze_csv_files`: on an `object`
column, try `pd.to_datetime(df[column].dropna().head(100), errors='raise')`,
then `pd.to_numeric(..., errors='raise')`, else `string`; an `int64`/`float64`
column is `numeric`; any other storage type answers its dtype name.
Note both strict parses succeed on an empty sample. -/
def suggestedType (dt : Dtype) (cells : List PdValue) : String :=
  if dt = Dtype.object then
    if ((dropna cells).take 100).all cellIsDatetime then ("datetime")
    else if ((dropna cells).take 100).all cellIsNumeric then ("numeric")
    else ("string")
  else if dt = Dtype.int64 ∨ dt = Dtype.float64 then ("numeric")
  else dtypeName dt

/-- The Type Inferencer as worded by spec §4.1 (ordered, first match wins):
1. storage already a numeric machine type → `numeric`; 2. strict timestamp
parse of all sampled values → `datetime`; 3. strict numeric parse of all
sampled values → `numeric`; 4. else `string`.  Second definition kept for
the refinement comparison with `suggestedType`. -/
def inferSpec (dt : Dtype) (cells : List PdValue) : String :=
  if dt = Dtype.int64 ∨ dt = Dtype.float64 then ("numeric")
  else
    if ((dropna cells).take 100).all cellIsDatetime then ("datetime")
    else if ((dropna cells).take 100).all cellIsNumeric then ("numeric")
    else ("string")

/-- An IEEE-style float value as produced by numpy scalar arithmetic. -/
inductive PyFloat where
  | finite (q : Rat)
  | nan
  | inf
  | ninf
deriving DecidableEq, Repr

/-- True division of numpy int64 scalars (`null_count` is
`df[column].isnull().sum()`, a `numpy.int64`, so `/` follows numpy
semantics): division by zero emits a RuntimeWarning and yields
nan (0/0) or ±inf — it never raises a Python ZeroDivisionError. -/
def npInt64Div (a b : Int) : PyFloat :=
  if b = 0 then
    if a = 0 then PyFloat.nan else if 0 < a then PyFloat.inf else PyFloat.ninf
  else PyFloat.finite ((a : Rat) / (b : Rat))

/-- Multiplication of a numpy float by a positive literal (the `* 100`). -/
def pyMulPos (x : PyFloat) (c : Rat) : PyFloat :=
  match x with
  | PyFloat.finite q => PyFloat.finite (q * c)
  | PyFloat.nan => PyFloat.nan
  | PyFloat.inf => PyFloat.inf
  | PyFloat.ninf => PyFloat.ninf

/-- Subtraction of a numpy float from a finite literal (the `100 - pct`). -/
def pySubFrom (c : Rat) (x : PyFloat) : PyFloat :=
  match x with
  | PyFloat.finite q => PyFloat.finite (c - q)
  | PyFloat.nan => PyFloat.nan
  | PyFloat.inf => PyFloat.ninf
  | PyFloat.ninf => PyFloat.inf

/-- The per-column percentage of `print_detailed_analysis`:
`null_percentage = (col_info['null_count'] / file_info['total_rows']) * 100`. -/
def nullPercentage (nullCount totalRows : Int) : PyFloat :=
  pyMulPos (npInt64Div nullCount totalRows) 100

/-- The per-column body of `print_detailed_analysis`: computes the
percentage pair that the entry prints.  An `Except.error` would model a
raised Python exception escaping the renderer; the computation is total,
so the entry is always produced. -/
def renderColumnEntry (nullCount totalRows : Int) : Except String (PyFloat × PyFloat) :=
  Except.ok (nullPercentage nullCount totalRows,
             pySubFrom 100 (nullPercentage nullCount totalRows))

/-- The relational store as observed by the loader: per-table row counts
keyed by `schema.table` and the set of index names present. -/
structure PgStore where
  tables : String → Option Nat
  indexes : String → Bool

/-- A store with no tables and no indexes. -/
def emptyStore : PgStore :=
  { tables := fun _ => none, indexes := fun _ => false }

/-- `df.to_sql(..., if_exists='replace')`: the whole table under this name
is replaced, leaving every other table and all indexes untouched. -/
def writeReplace (t : String) (n : Nat) (s : PgStore) : PgStore :=
  { tables := fun u => if u = t then some n else s.tables u, indexes := s.indexes }

/-- `CREATE INDEX IF NOT EXISTS name ...`: adds the name unless present. -/
def createIndex (nm : String) (s : PgStore) : PgStore :=
  if s.indexes nm then s
  else { tables := s.tables, indexes := fun i => if i = nm then true else s.indexes i }

/-- One iteration of the index loop of `load_csv_files`:
`if index_col in df.columns: CREATE INDEX IF NOT EXISTS idx_<table>_<col>`. -/
def indexStep (tbl : String) (df : Frame) (s : PgStore) (col : String) : PgStore :=
  if df.any (fun c => c.1 = col) then createIndex ("idx_" ++ tbl ++ "_" ++ col) s else s

/-- Static table configuration of `OlistDataLoader.table_configs`. -/
structure TableConfig where
  table_name : String
  schema : String
  dtypes : List (String × DeclType)
  date_columns : List String
  primary_key : Option String
  indexes : List String

/-- The index-creation step for one loaded table. -/
def createIndexes (cfg : TableConfig) (df : Frame) (s : PgStore) : PgStore :=
  cfg.indexes.foldl (indexStep cfg.table_name df) s

/-- Number of rows of a dataframe (all columns share one length). -/
def numRows (df : Frame) : Nat :=
  match df with
  | [] => 0
  | c :: _ => c.2.length

/-- Accumulated state of one `load_csv_files` run: the store plus the
`successful_loads` (table names) and `failed_loads` (file names) lists. -/
structure LoadState where
  store : PgStore
  successful : List String
  failed : List String

/-- One iteration of the per-table loop of `load_csv_files`: missing file →
failed (run continues); read error (caught exception) → failed; otherwise
coerce, write-replace, create indexes, verify (log only) and record the
table as successful. -/
def loadStep (files : String → Option FileData) (st : LoadState)
    (entry : String × TableConfig) : LoadState :=
  match files entry.1 with
  | none => { store := st.store, successful := st.successful, failed := st.failed ++ [entry.1] }
  | some file =>
    match readCsv file entry.2.date_columns with
    | Except.error _ =>
      { store := st.store, successful := st.successful, failed := st.failed ++ [entry.1] }
    | Except.ok df0 =>
      let df := applyDtypes entry.2.dtypes entry.2.date_columns df0
      { store := createIndexes entry.2 df
          (writeReplace (entry.2.schema ++ "." ++ entry.2.table_name) (numRows df) st.store),
        successful := st.successful ++ [entry.2.table_name],
        failed := st.failed }

/-- `OlistDataLoader.load_csv_files`: tables processed sequentially in
registry order. -/
def loadCsvFiles (files : String → Option FileData)
    (configs : List (String × TableConfig)) (st : LoadState) : LoadState :=
  configs.foldl (loadStep files) st

/-- Exit status of `main`: exit 1 when the connection or the schema
creation fails upfront; otherwise run `load_csv_files`, whose return value
`len(successful_loads) > 0` decides between the success path (exit 0 after
the documentation / views / quality steps, which catch their own errors)
and `sys.exit(1)`. -/
def mainExitCode (connectOk schemasOk : Bool) (files : String → Option FileData)
    (configs : List (String × TableConfig)) (store0 : PgStore) : Nat :=
  if connectOk = false then 1
  else if schemasOk = false then 1
  else if 0 < (loadCsvFiles files configs { store := store0, successful := [], failed := [] }).successful.length
  then 0 else 1

/-- `olist_customers_dataset.csv` entry of `table_configs`. -/
def customersConfig : TableConfig :=
  { table_name := "customers"
    schema := "raw_data"
    dtypes := [("customer_id", DeclType.string),
               ("customer_unique_id", DeclType.string),
               ("customer_zip_code_prefix", DeclType.string),
               ("customer_city", DeclType.string),
               ("customer_state", DeclType.string)]
    date_columns := []
    primary_key := some ("customer_id")
    indexes := ["customer_unique_id", "customer_state", "customer_zip_code_prefix"] }

/-- `olist_geolocation_dataset.csv` entry of `table_configs`. -/
def geolocationConfig : TableConfig :=
  { table_name := "geolocation"
    schema := "raw_data"
    dtypes := [("geolocation_zip_code_prefix", DeclType.string),
               ("geolocation_lat", DeclType.float),
               ("geolocation_lng", DeclType.float),
               ("geolocation_city", DeclType.string),
               ("geolocation_state", DeclType.string)]
    date_columns := []
    primary_key := none
    indexes := ["geolocation_zip_code_prefix", "geolocation_state"] }

/-- `olist_orders_dataset.csv` entry of `table_configs`. -/
def ordersConfig : TableConfig :=
  { table_name := "orders"
    schema := "raw_data"
    dtypes := [("order_id", DeclType.string),
               ("customer_id", DeclType.string),
               ("order_status", DeclType.string),
               ("order_purchase_timestamp", DeclType.datetime),
               ("order_approved_at", DeclType.datetime),
               ("order_delivered_carrier_date", DeclType.datetime),
               ("order_delivered_customer_date", DeclType.datetime),
               ("order_estimated_delivery_date", DeclType.datetime)]
    date_columns := ["order_purchase_timestamp", "order_approved_at",
                     "order_delivered_carrier_date", "order_delivered_customer_date",
                     "order_estimated_delivery_date"]
    primary_key := some ("order_id")
    indexes := ["customer_id", "order_status", "order_purchase_timestamp"] }

/-- `olist_order_items_dataset.csv` entry of `table_configs`. -/
def orderItemsConfig : TableConfig :=
  { table_name := "order_items"
    schema := "raw_data"
    dtypes := [("order_id", DeclType.string),
               ("order_item_id", DeclType.int),
               ("product_id", DeclType.string),
               ("seller_id", DeclType.string),
               ("shipping_limit_date", DeclType.datetime),
               ("price", DeclType.float),
               ("freight_value", DeclType.float)]
    date_columns := ["shipping_limit_date"]
    primary_key := none
    indexes := ["order_id", "product_id", "seller_id"] }

/-- `olist_order_payments_dataset.csv` entry of `table_configs`. -/
def orderPaymentsConfig : TableConfig :=
  { table_name := "order_payments"
    schema := "raw_data"
    dtypes := [("order_id", DeclType.string),
               ("payment_sequential", DeclType.int),
               ("payment_type", DeclType.string),
               ("payment_installments", DeclType.int),
               ("payment_value", DeclType.float)]
    date_columns := []
    primary_key := none
    indexes := ["order_id", "payment_type"] }

/-- `olist_order_reviews_dataset.csv` entry of `table_configs`. -/
def orderReviewsConfig : TableConfig :=
  { table_name := "order_reviews"
    schema := "raw_data"
    dtypes := [("review_id", DeclType.string),
               ("order_id", DeclType.string),
               ("review_score", DeclType.int),
               ("review_comment_title", DeclType.string),
               ("review_comment_message", DeclType.string),
               ("review_creation_date", DeclType.datetime),
               ("review_answer_timestamp", DeclType.datetime)]
    date_columns := ["review_creation_date", "review_answer_timestamp"]
    primary_key := some ("review_id")
    indexes := ["order_id", "review_score", "review_creation_date"] }

/-- `olist_products_dataset.csv` entry of `table_configs`. -/
def productsConfig : TableConfig :=
  { table_name := "products"
    schema := "raw_data"
    dtypes := [("product_id", DeclType.string),
               ("product_category_name", DeclType.string),
               ("product_name_lenght", DeclType.float),
               ("product_description_lenght", DeclType.float),
               ("product_photos_qty", DeclType.float),
               ("product_weight_g", DeclType.float),
               ("product_length_cm", DeclType.float),
               ("product_height_cm", DeclType.float),
               ("product_width_cm", DeclType.float)]
    date_columns := []
    primary_key := some ("product_id")
    indexes := ["product_category_name"] }

/-- `olist_sellers_dataset.csv` entry of `table_configs`. -/
def sellersConfig : TableConfig :=
  { table_name := "sellers"
    schema := "raw_data"
    dtypes := [("seller_id", DeclType.string),
               ("seller_zip_code_prefix", DeclType.string),
               ("seller_city", DeclType.string),
               ("seller_state", DeclType.string)]
    date_columns := []
    primary_key := some ("seller_id")
    indexes := ["seller_state", "seller_zip_code_prefix"] }

/-- `product_category_name_translation.csv` entry of `table_configs`. -/
def categoryTranslationConfig : TableConfig :=
  { table_name := "product_category_translation"
    schema := "raw_data"
    dtypes := [("product_category_name", DeclType.string),
               ("product_category_name_english", DeclType.string)]
    date_columns := []
    primary_key := some ("product_category_name")
    indexes := [] }

/-- `OlistDataLoader.table_configs` in its Python dict insertion order. -/
def tableConfigs : List (String × TableConfig) :=
  [("olist_customers_dataset.csv", customersConfig),
   ("olist_geolocation_dataset.csv", geolocationConfig),
   ("olist_orders_dataset.csv", ordersConfig),
   ("olist_order_items_dataset.csv", orderItemsConfig),
   ("olist_order_payments_dataset.csv", orderPaymentsConfig),
   ("olist_order_reviews_dataset.csv", orderReviewsConfig),
   ("olist_products_dataset.csv", productsConfig),
   ("olist_sellers_dataset.csv", sellersConfig),
   ("product_category_name_translation.csv", categoryTranslationConfig)]

/-- Left-biased choice on optional row counts (last write wins when read
through a stack of writes). -/
def oor (a b : Option Nat) : Option Nat :=
  match a with
  | some x => some x
  | none => b

theorem oor_assoc (a b c : Option Nat) : oor (oor a b) c = oor a (oor b c) := by
  cases a <;> rfl

theorem oor_self_absorb (a b : Option Nat) : oor a (oor a b) = oor a b := by
  cases a <;> rfl

/-- The write a single table-load attempt performs: the qualified table
name and row count when the load reaches the write, nothing otherwise. -/
def writeOf (files : String → Option FileData) (entry : String × TableConfig)
    (t : String) : Option Nat :=
  match files entry.1 with
  | none => none
  | some file =>
    match readCsv file entry.2.date_columns with
    | Except.error _ => none
    | Except.ok df0 =>
      if t = entry.2.schema ++ "." ++ entry.2.table_name then
        some (numRows (applyDtypes entry.2.dtypes entry.2.date_columns df0))
      else none

/-- The index names a single table-load attempt creates. -/
def stepIdx (files : String → Option FileData) (entry : String × TableConfig)
    (i : String) : Prop :=
  match files entry.1 with
  | none => False
  | some file =>
    match readCsv file entry.2.date_columns with
    | Except.error _ => False
    | Except.ok df0 =>
      ∃ col ∈ entry.2.indexes,
        (applyDtypes entry.2.dtypes entry.2.date_columns df0).any (fun c => c.1 = col) = true ∧
        i = "idx_" ++ entry.2.table_name ++ "_" ++ col

theorem indexStep_tables (tbl : String) (df : Frame) (s : PgStore) (col : String) :
    (indexStep tbl df s col).tables = s.tables := by
  unfold indexStep createIndex
  split
  · split <;> rfl
  · rfl

theorem foldl_indexStep_tables (tbl : String) (df : Frame) :
    ∀ (cols : List String) (s : PgStore), (cols.foldl (indexStep tbl df) s).tables = s.tables
  | [], _ => rfl
  | c :: cs, s => by
    rw [List.foldl_cons, foldl_indexStep_tables tbl df cs, indexStep_tables]

theorem createIndex_indexes (nm : String) (s : PgStore) (i : String) :
    ((createIndex nm s).indexes i = true) ↔ (i = nm ∨ s.indexes i = true) := by
  unfold createIndex
  split
  · rename_i h
    constructor
    · intro hi; exact Or.inr hi
    · rintro (rfl | hi)
      · exact h
      · exact hi
  · constructor
    · intro hi
      by_cases hnm : i = nm
      · exact Or.inl hnm
      · right; simpa [hnm] using hi
    · rintro (rfl | hi)
      · simp
      · simp [hi]

theorem indexStep_indexes (tbl : String) (df : Frame) (s : PgStore) (col i : String) :
    ((indexStep tbl df s col).indexes i = true) ↔
      ((df.any (fun c => c.1 = col) = true ∧ i = "idx_" ++ tbl ++ "_" ++ col) ∨
        s.indexes i = true) := by
  unfold indexStep
  split
  · rename_i h
    rw [createIndex_indexes]
    constructor
    · rintro (rfl | hi)
      · exact Or.inl ⟨h, rfl⟩
      · exact Or.inr hi
    · rintro (⟨_, rfl⟩ | hi)
      · exact Or.inl rfl
      · exact Or.inr hi
  · rename_i h
    constructor
    · intro hi; exact Or.inr hi
    · rintro (⟨ha, _⟩ | hi)
      · exact absurd ha h
      · exact hi

theorem foldl_indexStep_indexes (tbl : String) (df : Frame) :
    ∀ (cols : List String) (s : PgStore) (i : String),
      ((cols.foldl (indexStep tbl df) s).indexes i = true) ↔
        ((∃ col ∈ cols, df.any (fun c => c.1 = col) = true ∧
            i = "idx_" ++ tbl ++ "_" ++ col) ∨ s.indexes i = true)
  | [], s, i => by simp
  | c :: cs, s, i => by
    rw [List.foldl_cons, foldl_indexStep_indexes tbl df cs, indexStep_indexes]
    constructor
    · rintro (⟨col, hcol, hx⟩ | (hc | hi))
      · exact Or.inl ⟨col, List.mem_cons_of_mem _ hcol, hx⟩
      · exact Or.inl ⟨c, List.mem_cons_self _ _, hc⟩
      · exact Or.inr hi
    · rintro (⟨col, hcol, hx⟩ | hi)
      · rcases List.mem_cons.1 hcol with rfl | hcol
        · exact Or.inr (Or.inl hx)
        · exact Or.inl ⟨col, hcol, hx⟩
      · exact Or.inr (Or.inr hi)

theorem loadStep_tables (files : String → Option FileData) (st : LoadState)
    (entry : String × TableConfig) (t : String) :
    ((loadStep files st entry).store).tables t =
      oor (writeOf files entry t) (st.store.tables t) := by
  unfold loadStep writeOf
  rcases hf : files entry.1 with _ | file
  · rfl
  · rcases hr : readCsv file entry.2.date_columns with e | df0
    · simp only [hr]
      rfl
    · simp only [hr]
      unfold createIndexes
      rw [foldl_indexStep_tables]
      dsimp only [writeReplace, oor]
      split <;> rfl

theorem loadStep_indexes (files : String → Option FileData) (st : LoadState)
    (entry : String × TableConfig) (i : String) :
    (((loadStep files st entry).store).indexes i = true) ↔
      (stepIdx files entry i ∨ st.store.indexes i = true) := by
  unfold loadStep stepIdx
  rcases hf : files entry.1 with _ | file
  · simp
  · rcases hr : readCsv file entry.2.date_columns with e | df0
    · simp only [hr]
      simp
    · simp only [hr]
      unfold createIndexes
      rw [foldl_indexStep_indexes]
      exact Iff.rfl

/-- The last row-count written to table `t` by a run over `configs`
(later configuration entries override earlier ones). -/
def runWrite (files : String → Option FileData) :
    List (String × TableConfig) → String → Option Nat
  | [], _ => none
  | e :: rest, t => oor (runWrite files rest t) (writeOf files e t)

/-- Whether a run over `configs` creates index name `i`. -/
def runIdx (files : String → Option FileData) :
    List (String × TableConfig) → String → Prop
  | [], _ => False
  | e :: rest, i => stepIdx files e i ∨ runIdx files rest i

theorem loadCsvFiles_cons (files : String → Option FileData)
    (e : String × TableConfig) (rest : List (String × TableConfig)) (st : LoadState) :
    loadCsvFiles files (e :: rest) st = loadCsvFiles files rest (loadStep files st e) := rfl

theorem run_tables (files : String → Option FileData) :
    ∀ (configs : List (String × TableConfig)) (st : LoadState) (t : String),
      ((loadCsvFiles files configs st).store).tables t =
        oor (runWrite files configs t) (st.store.tables t)
  | [], _, _ => rfl
  | e :: rest, st, t => by
    rw [loadCsvFiles_cons, run_tables files rest _ t, loadStep_tables]
    show _ = oor (oor (runWrite files rest t) (writeOf files e t)) (st.store.tables t)
    rw [oor_assoc]

theorem run_indexes (files : String → Option FileData) :
    ∀ (configs : List (String × TableConfig)) (st : LoadState) (i : String),
      (((loadCsvFiles files configs st).store).indexes i = true) ↔
        (runIdx files configs i ∨ st.store.indexes i = true)
  | [], st, i => by simp [loadCsvFiles, runIdx]
  | e :: rest, st, i => by
    rw [loadCsvFiles_cons, run_indexes files rest _ i, loadStep_indexes]
    show _ ↔ (stepIdx files e i ∨ runIdx files rest i) ∨ _
    tauto

theorem bool_eq_of_iff {a b : Bool} (h : a = true ↔ b = true) : a = b := by
  cases a <;> cases b <;> simp_all

/-- Claim C1: for every column declared `int`, coercion returns a
same-length sequence in which every cell that fails the numeric parse
becomes the integer 0 and every cell holding a valid integer is unchanged;
in particular the raw column ["3", "N/A", "5"] (as read, with "N/A" an NA
token) coerces to [3, 0, 5], and `payment_installments` is declared `int`. -/
theorem c1_int_coercion (cells : List PdValue) :
    (cells.map coerceIntCell).length = cells.length ∧
    (∀ (i : Nat) c, cells[i]? = some c → toNumericCell c = none →
      (cells.map coerceIntCell)[i]? = some (PdValue.vInt 0)) ∧
    (∀ (i : Nat) c (n : Int), cells[i]? = some c → toNumericCell c = some { num := n, exp := 0 } →
      (cells.map coerceIntCell)[i]? = some (PdValue.vInt n)) ∧
    ((readColumn ["3", "N/A", "5"]).2).map coerceIntCell
      = [PdValue.vInt 3, PdValue.vInt 0, PdValue.vInt 5] ∧
    orderPaymentsConfig.dtypes.lookup ("payment_installments") = some DeclType.int := by
  refine ⟨List.length_map _ _, ?_, ?_, by decide, by decide⟩
  · intro i c hc hn
    rw [List.getElem?_map, hc]
    simp [coerceIntCell, hn]
  · intro i c n hc hn
    rw [List.getElem?_map, hc]
    simp [coerceIntCell, hn, decTrunc, Int.tdiv_one]

/-- Witness for C1 at a concrete column. -/
theorem c1_int_coercion_witness :
    ([PdValue.vStr "7", PdValue.nan].map coerceIntCell)[0]? = some (PdValue.vInt 7) ∧
    ([PdValue.vStr "7", PdValue.nan].map coerceIntCell)[1]? = some (PdValue.vInt 0) :=
  ⟨(c1_int_coercion [PdValue.vStr "7", PdValue.nan]).2.2.1 0 (PdValue.vStr "7") 7 rfl (by decide),
   (c1_int_coercion [PdValue.vStr "7", PdValue.nan]).2.1 1 PdValue.nan rfl rfl⟩

/-- Claim C9: for a declared `int` column, truly missing cells also coerce
to the integer 0, the coerced output never contains a missing value, and a
missing cell is indistinguishable from a literal "0" cell. -/
theorem c9_int_null_to_zero (cells : List PdValue) :
    (∀ (i : Nat), cells[i]? = some PdValue.nan →
      (cells.map coerceIntCell)[i]? = some (PdValue.vInt 0)) ∧
    (∀ c ∈ cells.map coerceIntCell, c ≠ PdValue.nan ∧ ∃ n : Int, c = PdValue.vInt n) ∧
    coerceIntCell PdValue.nan = coerceIntCell (PdValue.vStr "0") := by
  refine ⟨?_, ?_, by decide⟩
  · intro i hc
    rw [List.getElem?_map, hc]
    rfl
  · intro c hc
    obtain ⟨x, _, rfl⟩ := List.mem_map.1 hc
    unfold coerceIntCell
    rcases h : toNumericCell x with _ | d <;> exact ⟨by simp, _, rfl⟩

/-- Witness for C9 at a concrete column. -/
theorem c9_int_null_to_zero_witness :
    ([PdValue.nan].map coerceIntCell)[0]? = some (PdValue.vInt 0) ∧
    coerceIntCell PdValue.nan = coerceIntCell (PdValue.vStr "0") :=
  ⟨(c9_int_null_to_zero [PdValue.nan]).1 0 rfl, (c9_int_null_to_zero []).2.2⟩

/-- Claim C6: declared `string` coercion converts every cell to text or a
true missing value, and the null-marker text "nan" is never present as a
literal string anywhere in the coerced output. -/
theorem c6_string_null_marker (cells : List PdValue) :
    (cells.map coerceStringCell).length = cells.length ∧
    (∀ c ∈ cells.map coerceStringCell,
      c = PdValue.nan ∨ ∃ s, c = PdValue.vStr s ∧ s ≠ "nan") ∧
    (∀ c ∈ cells.map coerceStringCell, c ≠ PdValue.vStr "nan") := by
  have h2 : ∀ c ∈ cells.map coerceStringCell,
      c = PdValue.nan ∨ ∃ s, c = PdValue.vStr s ∧ s ≠ "nan" := by
    intro c hc
    obtain ⟨x, _, rfl⟩ := List.mem_map.1 hc
    unfold coerceStringCell
    by_cases h : astypeStr x = "nan"
    · simp [h]
    · simp [h]
  refine ⟨List.length_map _ _, h2, ?_⟩
  intro c hc
  rcases h2 c hc with rfl | ⟨s, rfl, hs⟩
  · simp
  · simp [hs]

/-- Witness for C6 at a concrete column. -/
theorem c6_string_null_marker_witness :
    coerceStringCell PdValue.nan ≠ PdValue.vStr "nan" ∧
    ([PdValue.nan, PdValue.vStr "x"].map coerceStringCell).length = 2 :=
  ⟨(c6_string_null_marker [PdValue.nan]).2.2 (coerceStringCell PdValue.nan) (by decide),
   (c6_string_null_marker [PdValue.nan, PdValue.vStr "x"]).1⟩

/-- Claim C4: over the storage types of data columns (object text,
int64/float64 numeric machine types), the analyzer's suggested type equals
the spec's ordered first-match algorithm: numeric storage → numeric;
otherwise strict datetime parse of the whole sample first (one failure
disqualifies), then strict numeric parse, else string. -/
theorem c4_inference_order (dt : Dtype) (cells : List PdValue)
    (h : dt = Dtype.object ∨ dt = Dtype.int64 ∨ dt = Dtype.float64) :
    suggestedType dt cells = inferSpec dt cells := by
  rcases h with rfl | rfl | rfl <;> simp [suggestedType, inferSpec]

/-- Witness for C4 at a concrete column. -/
theorem c4_inference_order_witness :
    suggestedType Dtype.object [PdValue.vStr "2017-10-02"] =
      inferSpec Dtype.object [PdValue.vStr "2017-10-02"] ∧
    inferSpec Dtype.object [PdValue.vStr "2017-10-02"] = "datetime" :=
  ⟨c4_inference_order Dtype.object _ (Or.inl rfl), by decide⟩

/-- Claim C5 counterexample: an empty column (zero non-null values, object
storage, as a header-only file produces) is classified "datetime", not
"string": the strict to_datetime parse succeeds vacuously on the empty
sample, so the claimed string default is false on the code. -/
theorem c5_counterexample :
    suggestedType Dtype.object [] ≠ "string" ∧
    suggestedType Dtype.object [] = "datetime" ∧
    sampleValues [] = [] := by
  exact ⟨by decide, by decide, rfl⟩

/-- Claim C5 amended: over the storage types a dtype-free CSV read gives
data columns (object, int64, float64), inference is total into
{string, numeric, datetime} and never fails; an empty object column is
classified datetime (not string) with an empty sample list. -/
theorem c5_inference_total_amended (dt : Dtype) (cells : List PdValue)
    (h : dt = Dtype.object ∨ dt = Dtype.int64 ∨ dt = Dtype.float64) :
    (suggestedType dt cells = "string" ∨ suggestedType dt cells = "numeric" ∨
      suggestedType dt cells = "datetime") ∧
    (dt = Dtype.object → cells = [] →
      suggestedType dt cells = "datetime" ∧ sampleValues cells = []) := by
  constructor
  · rcases h with rfl | rfl | rfl
    · unfold suggestedType
      split_ifs <;> simp_all
    · simp [suggestedType]
    · simp [suggestedType]
  · rintro rfl rfl
    exact ⟨by decide, rfl⟩

/-- Witness for the amended C5 at the empty object column. -/
theorem c5_inference_total_witness :
    (suggestedType Dtype.object [] = "string" ∨ suggestedType Dtype.object [] = "numeric" ∨
      suggestedType Dtype.object [] = "datetime") ∧
    suggestedType Dtype.object [] = "datetime" ∧ sampleValues ([] : List PdValue) = [] :=
  ⟨(c5_inference_total_amended Dtype.object [] (Or.inl rfl)).1,
   (c5_inference_total_amended Dtype.object [] (Or.inl rfl)).2 rfl rfl⟩

/-- Claim C2 fails on the code (code bug): `read_csv` is called without
`dtype=str`, so a fully numeric zip-prefix column is inferred int64 before
the declared-string coercion runs; "01310" has already become 1310 and
`astype(str)` renders "1310".  The registry's own comment says the column
is kept string precisely to preserve leading zeros. -/
theorem c2_zip_code_failing_eval :
    sellersConfig.dtypes.lookup ("seller_zip_code_prefix") = some DeclType.string ∧
    (readCsv [("seller_zip_code_prefix", ["01310"])] sellersConfig.date_columns).map
        (applyDtypes sellersConfig.dtypes sellersConfig.date_columns)
      = Except.ok [("seller_zip_code_prefix", [PdValue.vStr "1310"])] ∧
    PdValue.vStr "1310" ≠ PdValue.vStr "01310" := by
  exact ⟨by decide, by rfl, by decide⟩

/-- Claim C10 counterexample: with total_rows = 0 the detailed renderer
does not raise — null_count is a numpy int64, so null_count / total_rows
follows numpy IEEE semantics and yields NaN; the entry is still produced. -/
theorem c10_counterexample :
    renderColumnEntry 0 0 = Except.ok (PyFloat.nan, PyFloat.nan) ∧
    (∀ e, renderColumnEntry 0 0 ≠ Except.error e) := by
  constructor
  · rfl
  · intro e h
    simp [renderColumnEntry] at h

/-- Claim C10 amended: the per-column rendering computation is total; for
total_rows = 0 the percentage evaluates to NaN when null_count = 0 and to
+inf when null_count > 0, and no division-by-zero error is raised. -/
theorem c10_render_total_amended (nullCount totalRows : Int) :
    (∃ p, renderColumnEntry nullCount totalRows = Except.ok p) ∧
    (totalRows = 0 → nullCount = 0 → nullPercentage nullCount totalRows = PyFloat.nan) ∧
    (totalRows = 0 → 0 < nullCount → nullPercentage nullCount totalRows = PyFloat.inf) := by
  refine ⟨⟨_, rfl⟩, ?_, ?_⟩
  · rintro rfl rfl
    rfl
  · rintro rfl h
    have h0 : nullCount ≠ 0 := ne_of_gt h
    simp [nullPercentage, npInt64Div, pyMulPos, h0, h]

/-- Witness for the amended C10 at null_count 7, total_rows 0. -/
theorem c10_render_total_witness :
    (∃ p, renderColumnEntry 7 0 = Except.ok p) ∧ nullPercentage 7 0 = PyFloat.inf :=
  ⟨(c10_render_total_amended 7 0).1, (c10_render_total_amended 7 0).2.2 rfl (by decide)⟩

/-- Claim C8: loading is idempotent — running `load_csv_files` twice in
succession over the same files against the same target yields the same
per-table row counts and the same set of index names as running it once
(write-replace semantics plus create-index-if-not-exists). -/
theorem c8_load_idempotent (configs : List (String × TableConfig))
    (files : String → Option FileData) (s0 : PgStore) :
    (∀ t, ((loadCsvFiles files configs
        { store := (loadCsvFiles files configs
            { store := s0, successful := [], failed := [] }).store,
          successful := [], failed := [] }).store).tables t
      = ((loadCsvFiles files configs
          { store := s0, successful := [], failed := [] }).store).tables t) ∧
    (∀ i, ((loadCsvFiles files configs
        { store := (loadCsvFiles files configs
            { store := s0, successful := [], failed := [] }).store,
          successful := [], failed := [] }).store).indexes i
      = ((loadCsvFiles files configs
          { store := s0, successful := [], failed := [] }).store).indexes i) := by
  constructor
  · intro t
    rw [run_tables files configs _ t, run_tables files configs _ t]
    exact oor_self_absorb _ _
  · intro i
    apply bool_eq_of_iff
    rw [run_indexes files configs _ i, run_indexes files configs _ i]
    tauto

/-- Claim C3 counterexample: with the connection and schema creation both
succeeding, a run in which every per-table load fails (here: all source
files missing) makes `load_csv_files` return false and `main` exits 1 —
a per-table failure can produce a non-zero exit, contrary to the claim. -/
theorem c3_counterexample :
    mainExitCode true true (fun _ => none) tableConfigs emptyStore = 1 := rfl

/-- Claim C3 amended: a table whose source file is missing is appended to
the failed-loads list, the succeeded-tables list and the store are left
unchanged, and the orchestrator continues with the next table; with
connection and schema creation succeeding, the process exits 0 exactly when
at least one table loaded (and 1 when none did); an upfront connection or
schema failure always exits 1. -/
theorem c3_exit_behavior_amended :
    (∀ (files : String → Option FileData) (st : LoadState) (entry : String × TableConfig),
      files entry.1 = none →
      loadStep files st entry
        = { store := st.store, successful := st.successful,
            failed := st.failed ++ [entry.1] }) ∧
    (∀ (files : String → Option FileData) (e : String × TableConfig)
        (rest : List (String × TableConfig)) (st : LoadState),
      loadCsvFiles files (e :: rest) st = loadCsvFiles files rest (loadStep files st e)) ∧
    (∀ (files : String → Option FileData) (configs : List (String × TableConfig))
        (store0 : PgStore),
      mainExitCode true true files configs store0 = 0 ↔
        (loadCsvFiles files configs
          { store := store0, successful := [], failed := [] }).successful ≠ []) ∧
    (∀ (connectOk schemasOk : Bool) (files : String → Option FileData)
        (configs : List (String × TableConfig)) (store0 : PgStore),
      (connectOk = false ∨ schemasOk = false) →
      mainExitCode connectOk schemasOk files configs store0 = 1) := by
  refine ⟨?_, ?_, ?_, ?_⟩
  · intro files st entry h
    unfold loadStep
    rw [h]
  · intro files e rest st
    rfl
  · intro files configs store0
    unfold mainExitCode
    simp only [Bool.true_eq_false, if_false]
    constructor
    · intro h
      by_cases hp : 0 < (loadCsvFiles files configs
          { store := store0, successful := [], failed := [] }).successful.length
      · exact List.length_pos.1 hp
      · rw [if_neg hp] at h
        exact absurd h (by decide)
    · intro h
      rw [if_pos (List.length_pos.2 h)]
  · intro connectOk schemasOk files configs store0 h
    rcases h with rfl | rfl
    · rfl
    · unfold mainExitCode
      rcases connectOk <;> rfl

/-- Witness for the amended C3 at concrete inputs. -/
theorem c3_exit_behavior_witness :
    loadStep (fun _ => none) { store := emptyStore, successful := [], failed := [] }
        ("olist_sellers_dataset.csv", sellersConfig)
      = { store := emptyStore, successful := [],
          failed := [] ++ ["olist_sellers_dataset.csv"] } ∧
    (mainExitCode true true (fun _ => none) tableConfigs emptyStore = 0 ↔
      (loadCsvFiles (fun _ => none) tableConfigs
        { store := emptyStore, successful := [], failed := [] }).successful ≠ []) ∧
    mainExitCode false true (fun _ => none) tableConfigs emptyStore = 1 :=
  ⟨c3_exit_behavior_amended.1 _ _ _ rfl,
   c3_exit_behavior_amended.2.2.1 _ _ _,
   c3_exit_behavior_amended.2.2.2 false true _ _ _ (Or.inl rfl)⟩

/-- Claim C7 counterexample: a table whose config declares a (non-temporal)
column `"x"` that is entirely absent from the source is NOT moved to the
failed state — the coercion loop's `if col in df.columns` guard silently
skips it and the table loads successfully. -/
theorem c7_counterexample :
    (loadStep (fun _ => some [("y", ["1"])])
        { store := emptyStore, successful := [], failed := [] }
        ("f.csv", { table_name := "t", schema := "raw_data",
                    dtypes := [("x", DeclType.string)], date_columns := [],
                    primary_key := none, indexes := [] })).successful = ["t"] ∧
    (loadStep (fun _ => some [("y", ["1"])])
        { store := emptyStore, successful := [], failed := [] }
        ("f.csv", { table_name := "t", schema := "raw_data",
                    dtypes := [("x", DeclType.string)], date_columns := [],
                    primary_key := none, indexes := [] })).failed = [] := by
  exact ⟨rfl, rfl⟩

/-- Claim C7 amended: coercion never fails at the cell level — it is a
total per-column map preserving column names and lengths, and a declared
column absent from the source is silently skipped (dropping it from the
declaration map changes nothing).  The structural failure mode sits in the
read step instead: a declared temporal (parse_dates) column absent from the
source raises a file-level error that moves the table to the failed list. -/
theorem c7_coercion_structural_amended :
    (∀ (dtypes : List (String × DeclType)) (dateCols : List String) (df : Frame)
        (col : String) (d : DeclType), (∀ c ∈ df, c.1 ≠ col) →
      applyDtypes ((col, d) :: dtypes) dateCols df = applyDtypes dtypes dateCols df) ∧
    (∀ (dtypes : List (String × DeclType)) (dateCols : List String) (df : Frame)
        (c : String × List PdValue), c ∈ applyDtypes dtypes dateCols df →
      ∃ c0 ∈ df, c.1 = c0.1 ∧ c.2.length = c0.2.length) ∧
    (∀ (files : String → Option FileData) (st : LoadState)
        (entry : String × TableConfig) (file : FileData) (dc : String),
      files entry.1 = some file → dc ∈ entry.2.date_columns →
      (∀ c ∈ file, c.1 ≠ dc) →
      (loadStep files st entry).failed = st.failed ++ [entry.1] ∧
      (loadStep files st entry).successful = st.successful) := by
  refine ⟨?_, ?_, ?_⟩
  · intro dtypes dateCols df col d h
    unfold applyDtypes
    apply List.map_congr_left
    intro c hc
    unfold colCoerce
    have hne : (c.1 == col) = false := beq_eq_false_iff_ne.2 (h c hc)
    simp [List.lookup, hne]
  · intro dtypes dateCols df c hc
    obtain ⟨c0, hc0, rfl⟩ := List.mem_map.1 hc
    refine ⟨c0, hc0, ?_⟩
    unfold colCoerce
    rcases List.lookup c0.1 dtypes with _ | d
    · exact ⟨rfl, rfl⟩
    · rcases d <;> simp
      split <;> simp
  · intro files st entry file dc hfile hdc habsent
    have hread : readCsv file entry.2.date_columns
        = Except.error ("Missing column provided to parse_dates") := by
      unfold readCsv
      rw [if_neg]
      intro hall
      have h1 := List.all_eq_true.1 hall dc hdc
      obtain ⟨c, hcf, hcd⟩ := List.any_eq_true.1 h1
      exact habsent c hcf (of_decide_eq_true hcd)
    unfold loadStep
    rw [hfile]
    simp only [hread]
    exact ⟨trivial, trivial⟩

/-- Witness for the amended C7 at concrete inputs. -/
theorem c7_coercion_structural_witness :
    applyDtypes [("x", DeclType.string)] [] [("y", [PdValue.vInt 1])]
      = applyDtypes [] [] [("y", [PdValue.vInt 1])] ∧
    (loadStep (fun _ => some [("y", ["1"])])
        { store := emptyStore, successful := [], failed := [] }
        ("g.csv", { table_name := "t2", schema := "raw_data", dtypes := [],
                    date_columns := ["d"], primary_key := none,
                    indexes := [] })).failed = [] ++ ["g.csv"] :=
  ⟨c7_coercion_structural_amended.1 [] [] [("y", [PdValue.vInt 1])] "x" DeclType.string
      (by decide),
   (c7_coercion_structural_amended.2.2 _ _ _ [("y", ["1"])] "d" rfl (by decide)
      (by decide)).1⟩
